import Mathlib

/-!
Verification of the ramanuj-vm-service repository: a Go HTTP service that
provisions libvirt virtual machines.  The development embeds:

* `vm-template.xml` rendered through Go `text/template` as an explicit
  string concatenation (`renderDomainXML`),
* `generateDomainXML`, `generateRandomMAC`, `createQcow2Disk` and
  `handleCreateVM` from `main.go`, with the outcomes of external calls
  (qemu-img, libvirt) supplied by an oracle `Env` and the side effects
  recorded as an explicit trace.

The first section develops a small theory of substring-occurrence counting
used to reason about the rendered descriptor text.
-/

/-- `isPre p l` is true when list `p` is a prefix of list `l`
(boolean, structural). -/
def isPre : List Char → List Char → Bool
  | [], _ => true
  | _ :: _, [] => false
  | a :: as, b :: bs => a == b && isPre as bs

/-- Number of (possibly overlapping) occurrences of the pattern `p`
in a character list: the number of positions where `p` is a prefix
of the corresponding tail. -/
def countP (p : List Char) : List Char → Nat
  | [] => 0
  | c :: rest => (if isPre p (c :: rest) then 1 else 0) + countP p rest

/-- `okSplit p L` checks that no nonempty proper prefix of `p` is a suffix
of `L`; under this condition no occurrence of `p` can straddle the border
between `L` and whatever follows it. -/
def okSplit (p : List Char) : List Char → Bool
  | [] => true
  | c :: l => (!(isPre (c :: l) p) || isPre p (c :: l)) && okSplit p l

/-!
## Hardware-address generation (`generateRandomMAC`, main.go lines 259-265)

Go formats each random octet with `%02x`: lowercase hexadecimal, left-padded
with `0` to a minimum width of two.  `Nat.toDigits 16` produces exactly the
lowercase hexadecimal digit characters used by that verb.
-/

/-- Go `%02x` formatting of a natural number: lowercase hexadecimal,
left-padded with '0' to a minimum width of 2. -/
def govHex (n : Nat) : String :=
  List.asString (List.replicate (2 - (Nat.toDigits 16 n).length) '0' ++ Nat.toDigits 16 n)

/-- `generateRandomMAC` from main.go: the three octets produced upstream by
`rand.Intn(256)` are passed in explicitly. -/
def generateRandomMAC (r1 r2 r3 : Nat) : String :=
  "52:54:00:" ++ govHex r1 ++ ":" ++ govHex r2 ++ ":" ++ govHex r3

/-- The sixteen characters `%x` can emit for a single digit. -/
def lowerHexDigits : List Char := "0123456789abcdef".data

/-- Value of one lowercase hexadecimal digit. -/
def hexDigitVal (c : Char) : Nat :=
  if c = '0' then 0 else if c = '1' then 1 else if c = '2' then 2 else
  if c = '3' then 3 else if c = '4' then 4 else if c = '5' then 5 else
  if c = '6' then 6 else if c = '7' then 7 else if c = '8' then 8 else
  if c = '9' then 9 else if c = 'a' then 10 else if c = 'b' then 11 else
  if c = 'c' then 12 else if c = 'd' then 13 else if c = 'e' then 14 else 15

/-- Value denoted by a big-endian string of hexadecimal digits. -/
def hexVal (l : List Char) : Nat :=
  l.foldl (fun acc c => 16 * acc + hexDigitVal c) 0

/-!
## Data model (main.go lines 20-55) and the oracle for external calls

`Env` packages everything the handler obtains from outside pure
computation: the freshly generated UUID, the three random MAC octets, and
the outcomes of the qemu-img and libvirt invocations.  `Effect` is the
vocabulary of external side effects the handler can perform; the Lean
handler returns the trace of effects it actually performed.
-/

/-- `RequestData` - incoming JSON to define how the VM should be created. -/
structure RequestData where
  Name : String
  PrebuiltDiskPath : String
  ISOImage : String
  MemoryMB : Int
  CPUs : Int
  DiskSizeGB : Int
  deriving DecidableEq, Repr

/-- `DiskDevice` - represents a disk in the final domain XML. -/
structure DiskDevice where
  Dev : String
  Path : String
  deriving DecidableEq, Repr

/-- `TemplateData` - all fields injected into vm-template.xml. -/
structure TemplateData where
  Name : String
  UUID : String
  MemoryKiB : Int
  CPUs : Int
  MacAddress : String
  Disks : List DiskDevice
  HasISO : Bool
  ISOImage : String
  deriving DecidableEq, Repr

/-- `ResponseData` - JSON body {status, message?} written by the service. -/
structure ResponseData where
  status : String
  message : String
  deriving DecidableEq, Repr

/-- Body of an HTTP response: `http.Error` writes plain text, while
`writeSuccessResponse`/`writeErrorResponse` encode a `ResponseData` as JSON. -/
inductive RespBody where
  | text (s : String)
  | json (r : ResponseData)
  deriving DecidableEq, Repr

/-- An HTTP response: status code plus body. -/
structure HttpResponse where
  code : Nat
  body : RespBody
  deriving DecidableEq, Repr

/-- External side effects the handler can perform.  `fileRemove` is part of
the available vocabulary (`os.Remove`) but is never emitted by the code. -/
inductive Effect where
  | qemuImgCreate (path : String) (sizeGB : Int)
  | libvirtConnect
  | domainDefine (xml : String)
  | domainStart
  | domainUndefine
  | fileRemove (path : String)
  deriving DecidableEq, Repr

/-- Oracle for everything the handler obtains from outside pure
computation: the generated UUID, the three `rand.Intn(256)` MAC octets, and
the outcomes of the qemu-img / libvirt calls.  `undefineOk` is the outcome
of the best-effort `dom.Undefine()`; the code discards it. -/
structure Env where
  uuid : String
  macR1 : Nat
  macR2 : Nat
  macR3 : Nat
  qemuImg : String → Int → Except String Unit
  connect : Except String Unit
  define : String → Except String Unit
  start : Except String Unit
  undefineOk : Bool

/-!
## The template text (src/unnamed/part_000, i.e. vm-template.xml)

Go `text/template` with no trim markers emits every byte outside the
`\x7b\x7b ... \x7d\x7d` actions verbatim.  The constants below are the
literal text chunks of vm-template.xml between consecutive actions, in
file order.
-/

/-- Text from the start of the file up to the `.Name` action. -/
def tpl0 : String := "<!-- vm-template.xml -->\n<!--\n  This template supports:\n    1. A list of disk devices (root + optional extra).\n    2. An optional CD-ROM device (if .HasISO is true).\n    3. Boot order: if ISO is present, boot from cdrom first, then disk;\n       otherwise, boot from disk only.\n-->\n\n<domain type='kvm'>\n    <name>"

/-- Between the `.Name` and `.UUID` actions. -/
def tpl1 : String := "</name>\n    <uuid>"

/-- Between the `.UUID` and first `.MemoryKiB` actions. -/
def tpl2 : String := "</uuid>\n\n    <!-- Memory in KiB -->\n    <memory unit='KiB'>"

/-- Between the two `.MemoryKiB` actions. -/
def tpl3 : String := "</memory>\n    <currentMemory unit='KiB'>"

/-- Between the second `.MemoryKiB` and the `.CPUs` action. -/
def tpl4 : String := "</currentMemory>\n\n    <!-- CPU cores -->\n    <vcpu placement='static'>"

/-- Between the `.CPUs` action and the boot-order conditional. -/
def tpl5 : String := "</vcpu>\n\n    <os>\n        <type arch='x86_64' machine='pc-q35-7.2'>hvm</type>\n\n        "

/-- Branch of the boot-order conditional taken when `.HasISO` is true. -/
def tplBootISO : String := "\n        <!-- If ISO is present, boot from CD-ROM first -->\n        <boot dev='cdrom'/>\n        <boot dev='hd'/>\n        "

/-- Branch of the boot-order conditional taken when `.HasISO` is false. -/
def tplBootNoISO : String := "\n        <!-- Otherwise, just boot from disk -->\n        <boot dev='hd'/>\n        "

/-- From the end of the boot conditional to the `range .Disks` loop. -/
def tpl6 : String := "\n    </os>\n\n    <features>\n        <acpi/>\n        <apic/>\n        <vmport state='off'/>\n    </features>\n\n    <!-- Host-passthrough CPU, Q35 machine, typical clock & power ops -->\n    <cpu mode='host-passthrough' check='none' migratable='on'/>\n    <clock offset='utc'>\n        <timer name='rtc' tickpolicy='catchup'/>\n        <timer name='pit' tickpolicy='delay'/>\n        <timer name='hpet' present='no'/>\n    </clock>\n    <on_poweroff>destroy</on_poweroff>\n    <on_reboot>restart</on_reboot>\n    <on_crash>destroy</on_crash>\n    <pm>\n        <suspend-to-mem enabled='no'/>\n        <suspend-to-disk enabled='no'/>\n    </pm>\n\n    <devices>\n        <emulator>/usr/bin/qemu-system-x86_64</emulator>\n\n        <!-- Disks: one or more from .Disks -->\n        "

/-- Loop body before the `.Path` action. -/
def tplDisk0 : String := "\n        <disk type='file' device='disk'>\n            <driver name='qemu' type='qcow2' discard='unmap'/>\n            <source file='"

/-- Loop body between the `.Path` and `.Dev` actions. -/
def tplDisk1 : String := "'/>\n            <target dev='"

/-- Loop body after the `.Dev` action. -/
def tplDisk2 : String := "' bus='virtio'/>\n        </disk>\n        "

/-- Between the end of the disk loop and the CD-ROM conditional. -/
def tpl7 : String := "\n\n        "

/-- CD-ROM conditional body before the `.ISOImage` action. -/
def tplCD0 : String := "\n        <!-- If user specified an ISO, attach as CD-ROM. -->\n        <disk type='file' device='cdrom'>\n            <driver name='qemu' type='raw'/>\n            <source file='"

/-- CD-ROM conditional body after the `.ISOImage` action. -/
def tplCD1 : String := "'/>\n            <!-- We use SATA for the CD-ROM device here -->\n            <target dev='sda' bus='sata'/>\n            <readonly/>\n        </disk>\n        "

/-- From the end of the CD-ROM conditional to the `.MacAddress` action. -/
def tpl8 : String := "\n\n        <!-- Basic network interface with random MAC -->\n        <interface type='network'>\n            <mac address='"

/-- From the `.MacAddress` action to the end of the file. -/
def tpl9 : String := "'/>\n            <source network='host-only-net'/>\n            <model type='virtio'/>\n        </interface>\n\n        <!-- Serial console and Spice/VNC style graphics -->\n        <serial type='pty'>\n            <target type='isa-serial' port='0'/>\n        </serial>\n        <console type='pty'>\n            <target type='serial' port='0'/>\n        </console>\n        <graphics type='spice' autoport='yes'>\n            <listen type='address'/>\n            <image compression='off'/>\n        </graphics>\n\n        <!-- Memory balloon and RNG -->\n        <memballoon model='virtio'/>\n        <rng model='virtio'>\n            <backend model='random'>/dev/urandom</backend>\n        </rng>\n\n    </devices>\n</domain>\n"

/-- Output of the `range .Disks` loop: one device entry per `DiskDevice`,
in list order. -/
def renderDisks : List DiskDevice → String
  | [] => ""
  | dk :: rest => tplDisk0 ++ dk.Path ++ tplDisk1 ++ dk.Dev ++ tplDisk2 ++ renderDisks rest

/-- Execution of the parsed vm-template.xml on a `TemplateData`: the pure
renderer from context to descriptor text. -/
def renderDomainXML (d : TemplateData) : String :=
  tpl0 ++ d.Name ++ tpl1 ++ d.UUID ++ tpl2 ++ toString d.MemoryKiB ++ tpl3
    ++ toString d.MemoryKiB ++ tpl4 ++ toString d.CPUs ++ tpl5
    ++ (if d.HasISO then tplBootISO else tplBootNoISO)
    ++ tpl6 ++ renderDisks d.Disks ++ tpl7
    ++ (if d.HasISO then tplCD0 ++ d.ISOImage ++ tplCD1 else "")
    ++ tpl8 ++ d.MacAddress ++ tpl9

/-- `generateDomainXML` from main.go: builds the `TemplateData` (generating
the UUID and the MAC once, from the oracle) and executes the template.
Template execution cannot fail on this fixed, startup-parsed template, so
the Go error return is always nil and is not modelled. -/
def generateDomainXML (req : RequestData) (disks : List DiskDevice) (env : Env) : String :=
  renderDomainXML
    { Name := req.Name
      UUID := env.uuid
      MemoryKiB := req.MemoryMB * 1024
      CPUs := req.CPUs
      MacAddress := generateRandomMAC env.macR1 env.macR2 env.macR3
      Disks := disks
      HasISO := req.ISOImage != ""
      ISOImage := req.ISOImage }

/-!
## The HTTP handler (main.go lines 79-220)

`handleCreateVM` is modelled as a function from the oracle, the HTTP
method, and the decoded JSON body (`none` = malformed JSON) to the HTTP
response plus the ordered trace of external side effects performed.
`conn.Close()` and `dom.Free()` (pure handle release) are not modelled.
-/

/-- `createQcow2Disk` from main.go: refuses non-positive sizes before the
external `qemu-img create` invocation; otherwise invokes `qemu-img` and
wraps a failure (`%v, output: %s` collapsed into the oracle's message). -/
def createQcow2Disk (env : Env) (path : String) (sizeGB : Int) :
    Except String Unit × List Effect :=
  if sizeGB ≤ 0 then (.error "disk_size_gb must be > 0 to create a new disk", [])
  else
    match env.qemuImg path sizeGB with
    | .ok _ => (.ok (), [.qemuImgCreate path sizeGB])
    | .error e => (.error ("qemu-img create failed: " ++ e), [.qemuImgCreate path sizeGB])

/-- Path of a freshly created root disk (main.go line 116). -/
def rootDiskPathOf (req : RequestData) : String :=
  "/var/lib/libvirt/images/" ++ req.Name ++ ".qcow2"

/-- Path of the additional data disk (main.go line 149). -/
def dataDiskPathOf (req : RequestData) : String :=
  "/var/lib/libvirt/images/" ++ req.Name ++ "-data.qcow2"

/-- The root disk path actually used: the prebuilt one when supplied,
otherwise the conventional path derived from the name. -/
def resolvedRootPath (req : RequestData) : String :=
  if req.PrebuiltDiskPath ≠ "" then req.PrebuiltDiskPath else rootDiskPathOf req

/-- The disk-device list resolved by the handler (main.go lines 104-162):
root as "vda", plus "vdb" exactly when a prebuilt root was supplied
together with a positive disk_size_gb. -/
def buildDisks (req : RequestData) : List DiskDevice :=
  [{ Dev := "vda", Path := resolvedRootPath req }]
    ++ (if req.PrebuiltDiskPath ≠ "" ∧ req.DiskSizeGB > 0 then
          [{ Dev := "vdb", Path := dataDiskPathOf req }]
        else [])

/-- Go `%+v` formatting of `RequestData`, used in the validation error. -/
def fmtRequest (req : RequestData) : String :=
  "\x7bName:" ++ req.Name ++ " PrebuiltDiskPath:" ++ req.PrebuiltDiskPath
    ++ " ISOImage:" ++ req.ISOImage ++ " MemoryMB:" ++ toString req.MemoryMB
    ++ " CPUs:" ++ toString req.CPUs ++ " DiskSizeGB:" ++ toString req.DiskSizeGB ++ "\x7d"

/-- `writeErrorResponse`: HTTP 500 with a JSON error body. -/
def writeErrorResponse (msg : String) : HttpResponse :=
  ⟨500, .json ⟨"error", msg⟩⟩

/-- `writeSuccessResponse`: implicit HTTP 200 with a JSON success body. -/
def writeSuccessResponse (msg : String) : HttpResponse :=
  ⟨200, .json ⟨"success", msg⟩⟩

/-- `handleCreateVM` from main.go: the five-step sequence (validate, create
disks, connect, define, start), returning the response and the trace of
external effects in execution order. -/
def handleCreateVM (env : Env) (method : String) (body : Option RequestData) :
    HttpResponse × List Effect :=
  if method ≠ "POST" then (⟨405, .text "Only POST is allowed"⟩, [])
  else
    match body with
    | none => (⟨400, .text "Invalid JSON input"⟩, [])
    | some req =>
      if req.Name = "" ∨ req.MemoryMB ≤ 0 ∨ req.CPUs ≤ 0 then
        (⟨400, .text ("Missing/invalid request fields: " ++ fmtRequest req)⟩, [])
      else
        match (if req.PrebuiltDiskPath ≠ "" then (Except.ok (), ([] : List Effect))
               else createQcow2Disk env (rootDiskPathOf req) req.DiskSizeGB) with
        | (.error e, fx1) => (writeErrorResponse ("Failed to create root disk: " ++ e), fx1)
        | (.ok _, fx1) =>
          match (if req.PrebuiltDiskPath ≠ "" ∧ req.DiskSizeGB > 0 then
                   createQcow2Disk env (dataDiskPathOf req) req.DiskSizeGB
                 else (Except.ok (), ([] : List Effect))) with
          | (.error e, fx2) =>
            (writeErrorResponse ("Failed to create additional data disk: " ++ e), fx1 ++ fx2)
          | (.ok _, fx2) =>
            match env.connect with
            | .error e =>
              (writeErrorResponse ("Failed to connect libvirt: " ++ e),
                fx1 ++ fx2 ++ [.libvirtConnect])
            | .ok _ =>
              match env.define (generateDomainXML req (buildDisks req) env) with
              | .error e =>
                (writeErrorResponse ("DomainDefineXML failed: " ++ e),
                  fx1 ++ fx2 ++ [.libvirtConnect,
                    .domainDefine (generateDomainXML req (buildDisks req) env)])
              | .ok _ =>
                match env.start with
                | .error e =>
                  (writeErrorResponse ("Failed to start domain: " ++ e),
                    fx1 ++ fx2 ++ [.libvirtConnect,
                      .domainDefine (generateDomainXML req (buildDisks req) env),
                      .domainStart, .domainUndefine])
                | .ok _ =>
                  (writeSuccessResponse "VM created and started successfully",
                    fx1 ++ fx2 ++ [.libvirtConnect,
                      .domainDefine (generateDomainXML req (buildDisks req) env),
                      .domainStart])

/-!
## Occurrence counting over the rendered descriptor

`countSub pat s` counts the occurrences of `pat` in `s`.  The master
lemmas below reduce the count over a full rendering to the counts over the
fixed template chunks, given that every interpolated value is free of the
character `<` (which every counted pattern starts with).
-/

/-- Occurrences of the pattern string `pat` inside `s`. -/
def countSub (pat s : String) : Nat :=
  countP pat.data s.data

/-- Concrete no-ISO request used by witnesses. -/
def c1req : RequestData :=
  { Name := "vm1", PrebuiltDiskPath := "", ISOImage := "", MemoryMB := 1024,
    CPUs := 2, DiskSizeGB := 10 }

/-- Concrete request with an installation image, used by witnesses. -/
def c1reqIso : RequestData :=
  { Name := "vm1", PrebuiltDiskPath := "", ISOImage := "/isos/debian.iso",
    MemoryMB := 1024, CPUs := 2, DiskSizeGB := 10 }

/-- Concrete disk list used by witnesses. -/
def c1disks : List DiskDevice :=
  [{ Dev := "vda", Path := "/var/lib/libvirt/images/vm1.qcow2" }]

/-- Concrete all-successful oracle used by witnesses. -/
def c1env : Env :=
  { uuid := "123e4567-e89b-12d3-a456-426614174000", macR1 := 0, macR2 := 171,
    macR3 := 255, qemuImg := fun _ _ => .ok (), connect := .ok (),
    define := fun _ => .ok (), start := .ok (), undefineOk := true }

/-- Rendered text before the boot-order conditional, for a context `d`. -/
def preChunk (d : TemplateData) : List Char :=
  tpl0.data ++ d.Name.data ++ tpl1.data ++ d.UUID.data ++ tpl2.data
    ++ (toString d.MemoryKiB).data ++ tpl3.data ++ (toString d.MemoryKiB).data
    ++ tpl4.data ++ (toString d.CPUs).data ++ tpl5.data

/-- Rendered text between the boot-order conditional and the CD-ROM
conditional: the fixed text around the rendered disk-device list. -/
def midChunk (d : TemplateData) : List Char :=
  tpl6.data ++ (renderDisks d.Disks).data ++ tpl7.data

/-- Rendered text after the CD-ROM conditional. -/
def postChunk (d : TemplateData) : List Char :=
  tpl8.data ++ d.MacAddress.data ++ tpl9.data

/-- Concrete request with a prebuilt root disk and a positive extra size,
used by witnesses. -/
def c2req : RequestData :=
  { Name := "vm2", PrebuiltDiskPath := "/var/lib/libvirt/images/base.qcow2",
    ISOImage := "", MemoryMB := 2048, CPUs := 4, DiskSizeGB := 20 }

/-- Concrete invalid request (empty name), used by witnesses. -/
def c3req : RequestData :=
  { Name := "", PrebuiltDiskPath := "", ISOImage := "", MemoryMB := 1024,
    CPUs := 2, DiskSizeGB := 10 }

/-- Concrete request with no prebuilt disk and a non-positive size, used by
witnesses. -/
def c10req : RequestData :=
  { Name := "vm10", PrebuiltDiskPath := "", ISOImage := "", MemoryMB := 512,
    CPUs := 1, DiskSizeGB := 0 }

/-- No file-removal effect occurs in a trace. -/
def noRemove (l : List Effect) : Prop := ∀ p, Effect.fileRemove p ∉ l

/-- Concrete validation-passing request whose name carries markup, used by
the C1 counterexample: the template engine performs no escaping. -/
def c1badreq : RequestData :=
  { Name := "vm1'/><boot dev='cdrom'/><x y='", PrebuiltDiskPath := "", ISOImage := "",
    MemoryMB := 1024, CPUs := 2, DiskSizeGB := 10 }

/-- The template context generateDomainXML builds for `c1badreq` with
`c1disks` and `c1env`. -/
def c1badctx : TemplateData :=
  { Name := "vm1'/><boot dev='cdrom'/><x y='",
    UUID := "123e4567-e89b-12d3-a456-426614174000", MemoryKiB := 1048576, CPUs := 2,
    MacAddress := generateRandomMAC 0 171 255, Disks := c1disks, HasISO := false,
    ISOImage := "" }

/-- Concrete oracle whose domain start fails, used by witnesses. -/
def c9env : Env :=
  { uuid := "123e4567-e89b-12d3-a456-426614174000", macR1 := 0, macR2 := 171,
    macR3 := 255, qemuImg := fun _ _ => .ok (), connect := .ok (),
    define := fun _ => .ok (), start := .error "guest failed to boot",
    undefineOk := false }

theorem isPre_append_left (p l r : List Char) (h : p.length ≤ l.length) :
    isPre p (l ++ r) = isPre p l := by
  induction p generalizing l with
  | nil => simp [isPre]
  | cons a as ih =>
    cases l with
    | nil => simp at h
    | cons b bs =>
      simp only [List.cons_append, List.append_eq, isPre]
      simp only [List.length_cons, Nat.succ_le_succ_iff] at h
      rw [ih bs h]

theorem isPre_false_of_short (p l : List Char) (h : l.length < p.length) :
    isPre p l = false := by
  induction p generalizing l with
  | nil => simp at h
  | cons a as ih =>
    cases l with
    | nil => rfl
    | cons b bs =>
      simp only [List.length_cons, Nat.succ_lt_succ_iff] at h
      simp only [isPre, ih bs h, Bool.and_false]

theorem isPre_swap (l p r : List Char) (h : l.length < p.length)
    (hpre : isPre p (l ++ r) = true) : isPre l p = true := by
  induction l generalizing p r with
  | nil => rfl
  | cons c ls ih =>
    cases p with
    | nil => simp at h
    | cons a as =>
      simp only [List.cons_append, isPre, Bool.and_eq_true, beq_iff_eq] at hpre
      simp only [List.length_cons, Nat.succ_lt_succ_iff] at h
      simp only [isPre, Bool.and_eq_true, beq_iff_eq]
      exact ⟨hpre.1.symm, ih as r h hpre.2⟩

theorem countP_append (p L R : List Char) (hok : okSplit p L = true) :
    countP p (L ++ R) = countP p L + countP p R := by
  induction L with
  | nil => simp [countP]
  | cons c L' ih =>
    simp only [okSplit, Bool.and_eq_true, Bool.or_eq_true, Bool.not_eq_eq_eq_not,
      Bool.not_true] at hok
    have hhead : isPre p (c :: (L' ++ R)) = isPre p (c :: L') := by
      by_cases hlen : p.length ≤ (c :: L').length
      · have := isPre_append_left p (c :: L') R hlen
        simpa using this
      · push_neg at hlen
        rw [isPre_false_of_short p (c :: L') hlen]
        cases hp : isPre p (c :: (L' ++ R)) with
        | false => rfl
        | true =>
          have hswap := isPre_swap (c :: L') p R hlen (by simpa using hp)
          rcases hok.1 with hbad | hgood
          · rw [hswap] at hbad; cases hbad
          · rw [isPre_false_of_short p (c :: L') hlen] at hgood; cases hgood
    simp only [List.cons_append, List.append_eq, countP, hhead, ih hok.2]
    omega

theorem countP_skip (p' x r : List Char) (hx : ('<' : Char) ∉ x) :
    countP ('<' :: p') (x ++ r) = countP ('<' :: p') r := by
  induction x with
  | nil => rfl
  | cons c x' ih =>
    have hc : ('<' : Char) ≠ c := fun h => hx (h ▸ List.mem_cons_self c x')
    have hx' : ('<' : Char) ∉ x' := fun h => hx (List.mem_cons_of_mem c h)
    simp only [List.cons_append, countP, isPre]
    have : (('<' : Char) == c) = false := beq_eq_false_iff_ne.mpr hc
    simp [this, ih hx']

set_option maxRecDepth 8192 in
theorem govHex_spec : ∀ n < 256, (govHex n).data.length = 2
    ∧ (∀ c ∈ (govHex n).data, c ∈ lowerHexDigits)
    ∧ hexVal (govHex n).data = n := by decide

theorem digitChar_lt16_ne_lt : ∀ m < 16, Nat.digitChar m ≠ '<' := by decide

theorem toDigitsCore_ne_lt (b fuel n : Nat) (acc : List Char)
    (hb : 0 < b) (hb16 : b ≤ 16)
    (hacc : ∀ c ∈ acc, c ≠ '<') : ∀ c ∈ Nat.toDigitsCore b fuel n acc, c ≠ '<' := by
  induction fuel generalizing n acc with
  | zero => simpa [Nat.toDigitsCore] using hacc
  | succ f ih =>
    have hcons : ∀ c ∈ Nat.digitChar (n % b) :: acc, c ≠ '<' := by
      intro c hc
      rcases List.mem_cons.mp hc with h | h
      · subst h
        exact digitChar_lt16_ne_lt (n % b) (Nat.lt_of_lt_of_le (Nat.mod_lt n hb) hb16)
      · exact hacc c h
    simp only [Nat.toDigitsCore]
    split
    · exact hcons
    · exact ih _ _ hcons

theorem toDigits_ne_lt (b n : Nat) (hb : 0 < b) (hb16 : b ≤ 16) :
    ∀ c ∈ Nat.toDigits b n, c ≠ '<' :=
  toDigitsCore_ne_lt b (n + 1) n [] hb hb16 (by intro c hc; cases hc)

theorem govHex_ne_lt (n : Nat) : ('<' : Char) ∉ (govHex n).data := by
  intro hmem
  unfold govHex at hmem
  rw [List.asString] at hmem
  rcases List.mem_append.mp hmem with h | h
  · exact absurd (List.eq_of_mem_replicate h) (by decide)
  · exact toDigits_ne_lt 16 n (by omega) (by omega) '<' h rfl

theorem mac_ne_lt (r1 r2 r3 : Nat) : ('<' : Char) ∉ (generateRandomMAC r1 r2 r3).data := by
  intro hmem
  unfold generateRandomMAC at hmem
  simp only [String.data_append, List.mem_append] at hmem
  rcases hmem with (((((h | h) | h) | h) | h) | h) <;>
    first
      | exact absurd h (by decide)
      | exact govHex_ne_lt _ h

theorem int_toString_ne_lt (i : Int) : ('<' : Char) ∉ (toString i).data := by
  intro hmem
  cases i with
  | ofNat m =>
    have h : (toString (Int.ofNat m)).data = Nat.toDigits 10 m := rfl
    rw [h] at hmem
    exact toDigits_ne_lt 10 m (by omega) (by omega) '<' hmem rfl
  | negSucc m =>
    have h : (toString (Int.negSucc m)).data = '-' :: Nat.toDigits 10 (m + 1) := rfl
    rw [h] at hmem
    rcases List.mem_cons.mp hmem with h2 | h2
    · exact absurd h2 (by decide)
    · exact toDigits_ne_lt 10 (m + 1) (by omega) (by omega) '<' h2 rfl

theorem countP_skip2 (p x r : List Char) (hp : p.head? = some '<')
    (hx : ('<' : Char) ∉ x) : countP p (x ++ r) = countP p r := by
  cases p with
  | nil => simp at hp
  | cons c p' =>
    have hc : c = '<' := by simpa using hp
    subst hc
    exact countP_skip p' x r hx

theorem countP_renderDisks (p : List Char) (ds : List DiskDevice) (r : List Char)
    (hp : p.head? = some '<')
    (hds : ∀ dk ∈ ds, ('<' : Char) ∉ dk.Path.data ∧ ('<' : Char) ∉ dk.Dev.data)
    (hk0 : okSplit p tplDisk0.data = true) (hc0 : countP p tplDisk0.data = 0)
    (hk1 : okSplit p tplDisk1.data = true) (hc1 : countP p tplDisk1.data = 0)
    (hk2 : okSplit p tplDisk2.data = true) (hc2 : countP p tplDisk2.data = 0) :
    countP p ((renderDisks ds).data ++ r) = countP p r := by
  induction ds with
  | nil => simp [renderDisks]
  | cons dk rest ih =>
    have hpath := (hds dk (List.mem_cons_self _ _)).1
    have hdev := (hds dk (List.mem_cons_self _ _)).2
    have hrest : ∀ x ∈ rest, ('<' : Char) ∉ x.Path.data ∧ ('<' : Char) ∉ x.Dev.data :=
      fun x hx => hds x (List.mem_cons_of_mem _ hx)
    have hshape : (renderDisks (dk :: rest)).data ++ r =
        tplDisk0.data ++ (dk.Path.data ++ (tplDisk1.data ++ (dk.Dev.data ++
          (tplDisk2.data ++ ((renderDisks rest).data ++ r))))) := by
      simp [renderDisks, List.append_assoc]
    rw [hshape, countP_append p _ _ hk0, countP_skip2 p _ _ hp hpath,
      countP_append p _ _ hk1, countP_skip2 p _ _ hp hdev,
      countP_append p _ _ hk2, ih hrest, hc0, hc1, hc2]
    omega

theorem countP_render_iso (p : List Char) (d : TemplateData)
    (hiso : d.HasISO = true) (hp : p.head? = some '<')
    (hname : ('<' : Char) ∉ d.Name.data) (huuid : ('<' : Char) ∉ d.UUID.data)
    (hisoimg : ('<' : Char) ∉ d.ISOImage.data) (hmac : ('<' : Char) ∉ d.MacAddress.data)
    (hdisks : ∀ dk ∈ d.Disks, ('<' : Char) ∉ dk.Path.data ∧ ('<' : Char) ∉ dk.Dev.data)
    (k0 : okSplit p tpl0.data = true) (k1 : okSplit p tpl1.data = true)
    (k2 : okSplit p tpl2.data = true) (k3 : okSplit p tpl3.data = true)
    (k4 : okSplit p tpl4.data = true) (k5 : okSplit p tpl5.data = true)
    (kBI : okSplit p tplBootISO.data = true) (k6 : okSplit p tpl6.data = true)
    (k7 : okSplit p tpl7.data = true) (kCD0 : okSplit p tplCD0.data = true)
    (kCD1 : okSplit p tplCD1.data = true) (k8 : okSplit p tpl8.data = true)
    (kD0 : okSplit p tplDisk0.data = true) (cD0 : countP p tplDisk0.data = 0)
    (kD1 : okSplit p tplDisk1.data = true) (cD1 : countP p tplDisk1.data = 0)
    (kD2 : okSplit p tplDisk2.data = true) (cD2 : countP p tplDisk2.data = 0) :
    countP p (renderDomainXML d).data =
      countP p tpl0.data + countP p tpl1.data + countP p tpl2.data + countP p tpl3.data
        + countP p tpl4.data + countP p tpl5.data + countP p tplBootISO.data
        + countP p tpl6.data + countP p tpl7.data + countP p tplCD0.data
        + countP p tplCD1.data + countP p tpl8.data + countP p tpl9.data := by
  have hshape : (renderDomainXML d).data =
      tpl0.data ++ (d.Name.data ++ (tpl1.data ++ (d.UUID.data ++ (tpl2.data ++
        ((toString d.MemoryKiB).data ++ (tpl3.data ++ ((toString d.MemoryKiB).data ++
        (tpl4.data ++ ((toString d.CPUs).data ++ (tpl5.data ++ (tplBootISO.data ++
        (tpl6.data ++ ((renderDisks d.Disks).data ++ (tpl7.data ++ (tplCD0.data ++
        (d.ISOImage.data ++ (tplCD1.data ++ (tpl8.data ++ (d.MacAddress.data ++
        tpl9.data))))))))))))))))))) := by
    simp [renderDomainXML, hiso, List.append_assoc]
  rw [hshape, countP_append p _ _ k0, countP_skip2 p _ _ hp hname,
    countP_append p _ _ k1, countP_skip2 p _ _ hp huuid,
    countP_append p _ _ k2, countP_skip2 p _ _ hp (int_toString_ne_lt d.MemoryKiB),
    countP_append p _ _ k3, countP_skip2 p _ _ hp (int_toString_ne_lt d.MemoryKiB),
    countP_append p _ _ k4, countP_skip2 p _ _ hp (int_toString_ne_lt d.CPUs),
    countP_append p _ _ k5, countP_append p _ _ kBI, countP_append p _ _ k6,
    countP_renderDisks p d.Disks _ hp hdisks kD0 cD0 kD1 cD1 kD2 cD2,
    countP_append p _ _ k7, countP_append p _ _ kCD0, countP_skip2 p _ _ hp hisoimg,
    countP_append p _ _ kCD1, countP_append p _ _ k8, countP_skip2 p _ _ hp hmac]
  omega

theorem countP_render_noiso (p : List Char) (d : TemplateData)
    (hiso : d.HasISO = false) (hp : p.head? = some '<')
    (hname : ('<' : Char) ∉ d.Name.data) (huuid : ('<' : Char) ∉ d.UUID.data)
    (hmac : ('<' : Char) ∉ d.MacAddress.data)
    (hdisks : ∀ dk ∈ d.Disks, ('<' : Char) ∉ dk.Path.data ∧ ('<' : Char) ∉ dk.Dev.data)
    (k0 : okSplit p tpl0.data = true) (k1 : okSplit p tpl1.data = true)
    (k2 : okSplit p tpl2.data = true) (k3 : okSplit p tpl3.data = true)
    (k4 : okSplit p tpl4.data = true) (k5 : okSplit p tpl5.data = true)
    (kBN : okSplit p tplBootNoISO.data = true) (k6 : okSplit p tpl6.data = true)
    (k7 : okSplit p tpl7.data = true) (k8 : okSplit p tpl8.data = true)
    (kD0 : okSplit p tplDisk0.data = true) (cD0 : countP p tplDisk0.data = 0)
    (kD1 : okSplit p tplDisk1.data = true) (cD1 : countP p tplDisk1.data = 0)
    (kD2 : okSplit p tplDisk2.data = true) (cD2 : countP p tplDisk2.data = 0) :
    countP p (renderDomainXML d).data =
      countP p tpl0.data + countP p tpl1.data + countP p tpl2.data + countP p tpl3.data
        + countP p tpl4.data + countP p tpl5.data + countP p tplBootNoISO.data
        + countP p tpl6.data + countP p tpl7.data + countP p tpl8.data
        + countP p tpl9.data := by
  have hshape : (renderDomainXML d).data =
      tpl0.data ++ (d.Name.data ++ (tpl1.data ++ (d.UUID.data ++ (tpl2.data ++
        ((toString d.MemoryKiB).data ++ (tpl3.data ++ ((toString d.MemoryKiB).data ++
        (tpl4.data ++ ((toString d.CPUs).data ++ (tpl5.data ++ (tplBootNoISO.data ++
        (tpl6.data ++ ((renderDisks d.Disks).data ++ (tpl7.data ++ (tpl8.data ++
        (d.MacAddress.data ++ tpl9.data)))))))))))))))) := by
    simp [renderDomainXML, hiso, List.append_assoc]
  rw [hshape, countP_append p _ _ k0, countP_skip2 p _ _ hp hname,
    countP_append p _ _ k1, countP_skip2 p _ _ hp huuid,
    countP_append p _ _ k2, countP_skip2 p _ _ hp (int_toString_ne_lt d.MemoryKiB),
    countP_append p _ _ k3, countP_skip2 p _ _ hp (int_toString_ne_lt d.MemoryKiB),
    countP_append p _ _ k4, countP_skip2 p _ _ hp (int_toString_ne_lt d.CPUs),
    countP_append p _ _ k5, countP_append p _ _ kBN, countP_append p _ _ k6,
    countP_renderDisks p d.Disks _ hp hdisks kD0 cD0 kD1 cD1 kD2 cD2,
    countP_append p _ _ k7, countP_append p _ _ k8, countP_skip2 p _ _ hp hmac]
  omega

set_option maxRecDepth 400000 in
theorem countBoot_noiso (d : TemplateData) (hiso : d.HasISO = false)
    (hname : ('<' : Char) ∉ d.Name.data) (huuid : ('<' : Char) ∉ d.UUID.data)
    (hmac : ('<' : Char) ∉ d.MacAddress.data)
    (hdisks : ∀ dk ∈ d.Disks, ('<' : Char) ∉ dk.Path.data ∧ ('<' : Char) ∉ dk.Dev.data) :
    countP "<boot dev='".data (renderDomainXML d).data = 1 := by
  rw [countP_render_noiso _ d hiso (by decide) hname huuid hmac hdisks (by decide) (by decide)
    (by decide) (by decide) (by decide) (by decide) (by decide) (by decide) (by decide)
    (by decide) (by decide) (by decide) (by decide) (by decide) (by decide) (by decide)]
  decide

set_option maxRecDepth 400000 in
theorem countBoot_iso (d : TemplateData) (hiso : d.HasISO = true)
    (hname : ('<' : Char) ∉ d.Name.data) (huuid : ('<' : Char) ∉ d.UUID.data)
    (hisoimg : ('<' : Char) ∉ d.ISOImage.data) (hmac : ('<' : Char) ∉ d.MacAddress.data)
    (hdisks : ∀ dk ∈ d.Disks, ('<' : Char) ∉ dk.Path.data ∧ ('<' : Char) ∉ dk.Dev.data) :
    countP "<boot dev='".data (renderDomainXML d).data = 2 := by
  rw [countP_render_iso _ d hiso (by decide) hname huuid hisoimg hmac hdisks (by decide)
    (by decide) (by decide) (by decide) (by decide) (by decide) (by decide) (by decide)
    (by decide) (by decide) (by decide) (by decide) (by decide) (by decide) (by decide)
    (by decide) (by decide) (by decide)]
  decide

set_option maxRecDepth 400000 in
theorem countRO_noiso (d : TemplateData) (hiso : d.HasISO = false)
    (hname : ('<' : Char) ∉ d.Name.data) (huuid : ('<' : Char) ∉ d.UUID.data)
    (hmac : ('<' : Char) ∉ d.MacAddress.data)
    (hdisks : ∀ dk ∈ d.Disks, ('<' : Char) ∉ dk.Path.data ∧ ('<' : Char) ∉ dk.Dev.data) :
    countP "<readonly/>".data (renderDomainXML d).data = 0 := by
  rw [countP_render_noiso _ d hiso (by decide) hname huuid hmac hdisks (by decide) (by decide)
    (by decide) (by decide) (by decide) (by decide) (by decide) (by decide) (by decide)
    (by decide) (by decide) (by decide) (by decide) (by decide) (by decide) (by decide)]
  decide

set_option maxRecDepth 400000 in
theorem countRO_iso (d : TemplateData) (hiso : d.HasISO = true)
    (hname : ('<' : Char) ∉ d.Name.data) (huuid : ('<' : Char) ∉ d.UUID.data)
    (hisoimg : ('<' : Char) ∉ d.ISOImage.data) (hmac : ('<' : Char) ∉ d.MacAddress.data)
    (hdisks : ∀ dk ∈ d.Disks, ('<' : Char) ∉ dk.Path.data ∧ ('<' : Char) ∉ dk.Dev.data) :
    countP "<readonly/>".data (renderDomainXML d).data = 1 := by
  rw [countP_render_iso _ d hiso (by decide) hname huuid hisoimg hmac hdisks (by decide)
    (by decide) (by decide) (by decide) (by decide) (by decide) (by decide) (by decide)
    (by decide) (by decide) (by decide) (by decide) (by decide) (by decide) (by decide)
    (by decide) (by decide) (by decide)]
  decide

set_option maxRecDepth 400000 in
theorem countCD_noiso (d : TemplateData) (hiso : d.HasISO = false)
    (hname : ('<' : Char) ∉ d.Name.data) (huuid : ('<' : Char) ∉ d.UUID.data)
    (hmac : ('<' : Char) ∉ d.MacAddress.data)
    (hdisks : ∀ dk ∈ d.Disks, ('<' : Char) ∉ dk.Path.data ∧ ('<' : Char) ∉ dk.Dev.data) :
    countP "<disk type='file' device='cdrom'>".data (renderDomainXML d).data = 0 := by
  rw [countP_render_noiso _ d hiso (by decide) hname huuid hmac hdisks (by decide) (by decide)
    (by decide) (by decide) (by decide) (by decide) (by decide) (by decide) (by decide)
    (by decide) (by decide) (by decide) (by decide) (by decide) (by decide) (by decide)]
  decide

set_option maxRecDepth 400000 in
theorem countCD_iso (d : TemplateData) (hiso : d.HasISO = true)
    (hname : ('<' : Char) ∉ d.Name.data) (huuid : ('<' : Char) ∉ d.UUID.data)
    (hisoimg : ('<' : Char) ∉ d.ISOImage.data) (hmac : ('<' : Char) ∉ d.MacAddress.data)
    (hdisks : ∀ dk ∈ d.Disks, ('<' : Char) ∉ dk.Path.data ∧ ('<' : Char) ∉ dk.Dev.data) :
    countP "<disk type='file' device='cdrom'>".data (renderDomainXML d).data = 1 := by
  rw [countP_render_iso _ d hiso (by decide) hname huuid hisoimg hmac hdisks (by decide)
    (by decide) (by decide) (by decide) (by decide) (by decide) (by decide) (by decide)
    (by decide) (by decide) (by decide) (by decide) (by decide) (by decide) (by decide)
    (by decide) (by decide) (by decide)]
  decide

theorem render_data_iso (d : TemplateData) (hiso : d.HasISO = true) :
    (renderDomainXML d).data =
      tpl0.data ++ (d.Name.data ++ (tpl1.data ++ (d.UUID.data ++ (tpl2.data ++
        ((toString d.MemoryKiB).data ++ (tpl3.data ++ ((toString d.MemoryKiB).data ++
        (tpl4.data ++ ((toString d.CPUs).data ++ (tpl5.data ++ (tplBootISO.data ++
        (tpl6.data ++ ((renderDisks d.Disks).data ++ (tpl7.data ++ (tplCD0.data ++
        (d.ISOImage.data ++ (tplCD1.data ++ (tpl8.data ++ (d.MacAddress.data ++
        tpl9.data))))))))))))))))))) := by
  simp [renderDomainXML, hiso, List.append_assoc]

theorem render_data_noiso (d : TemplateData) (hiso : d.HasISO = false) :
    (renderDomainXML d).data =
      tpl0.data ++ (d.Name.data ++ (tpl1.data ++ (d.UUID.data ++ (tpl2.data ++
        ((toString d.MemoryKiB).data ++ (tpl3.data ++ ((toString d.MemoryKiB).data ++
        (tpl4.data ++ ((toString d.CPUs).data ++ (tpl5.data ++ (tplBootNoISO.data ++
        (tpl6.data ++ ((renderDisks d.Disks).data ++ (tpl7.data ++ (tpl8.data ++
        (d.MacAddress.data ++ tpl9.data)))))))))))))))) := by
  simp [renderDomainXML, hiso, List.append_assoc]

set_option maxRecDepth 400000 in
/-- C1 as amended: provided the interpolated fields are free of the markup
character, with no installation image the rendered descriptor contains
exactly one boot-device declaration, referencing the root (hd) device and
no read-only or cdrom device entry; with an installation image it contains
exactly two boot-device declarations, cdrom before disk, and exactly one
additional read-only (cdrom) device entry.  The proviso is required: the
renderer performs no escaping, so markup in a field adds declarations. -/
theorem C1_boot_and_readonly_devices (req : RequestData) (disks : List DiskDevice)
    (env : Env)
    (hname : ('<' : Char) ∉ req.Name.data) (huuid : ('<' : Char) ∉ env.uuid.data)
    (hisoimg : ('<' : Char) ∉ req.ISOImage.data)
    (hdisks : ∀ dk ∈ disks, ('<' : Char) ∉ dk.Path.data ∧ ('<' : Char) ∉ dk.Dev.data) :
    (req.ISOImage = "" →
      countSub "<boot dev='" (generateDomainXML req disks env) = 1
      ∧ (∃ u v, (generateDomainXML req disks env).data =
          u ++ "<boot dev='hd'/>".data ++ v)
      ∧ countSub "<readonly/>" (generateDomainXML req disks env) = 0
      ∧ countSub "<disk type='file' device='cdrom'>" (generateDomainXML req disks env) = 0)
    ∧ (req.ISOImage ≠ "" →
      countSub "<boot dev='" (generateDomainXML req disks env) = 2
      ∧ (∃ u v w, (generateDomainXML req disks env).data =
          u ++ "<boot dev='cdrom'/>".data ++ v ++ "<boot dev='hd'/>".data ++ w)
      ∧ countSub "<readonly/>" (generateDomainXML req disks env) = 1
      ∧ countSub "<disk type='file' device='cdrom'>" (generateDomainXML req disks env) = 1) := by
  obtain ⟨nm, pb, iso, mem, cp, dsz⟩ := req
  simp only at hname hisoimg
  constructor
  · intro h
    have h' : iso = "" := h
    subst h'
    have hgen : generateDomainXML ⟨nm, pb, "", mem, cp, dsz⟩ disks env =
        renderDomainXML ⟨nm, env.uuid, mem * 1024, cp,
          generateRandomMAC env.macR1 env.macR2 env.macR3, disks, false, ""⟩ := by
      simp [generateDomainXML, bne_self_eq_false]
    refine ⟨?_, ?_, ?_, ?_⟩
    · simp only [countSub, hgen]
      exact countBoot_noiso _ rfl hname huuid (mac_ne_lt _ _ _) hdisks
    · rw [hgen, render_data_noiso _ rfl]
      refine ⟨tpl0.data ++ (nm.data ++ (tpl1.data ++ (env.uuid.data ++ (tpl2.data ++
        ((toString (mem * 1024)).data ++ (tpl3.data ++ ((toString (mem * 1024)).data ++
        (tpl4.data ++ ((toString cp).data ++ (tpl5.data ++
        "\n        <!-- Otherwise, just boot from disk -->\n        ".data)))))))))),
        "\n        ".data ++ (tpl6.data ++ ((renderDisks disks).data ++ (tpl7.data ++
          (tpl8.data ++ ((generateRandomMAC env.macR1 env.macR2 env.macR3).data ++
            tpl9.data))))), ?_⟩
      have hBN : tplBootNoISO.data =
          "\n        <!-- Otherwise, just boot from disk -->\n        ".data ++
            ("<boot dev='hd'/>".data ++ "\n        ".data) := by decide
      rw [hBN]
      simp [List.append_assoc]
    · simp only [countSub, hgen]
      exact countRO_noiso _ rfl hname huuid (mac_ne_lt _ _ _) hdisks
    · simp only [countSub, hgen]
      exact countCD_noiso _ rfl hname huuid (mac_ne_lt _ _ _) hdisks
  · intro h
    have h' : iso ≠ "" := h
    have hbne : (iso != "") = true := bne_iff_ne.mpr h'
    have hgen : generateDomainXML ⟨nm, pb, iso, mem, cp, dsz⟩ disks env =
        renderDomainXML ⟨nm, env.uuid, mem * 1024, cp,
          generateRandomMAC env.macR1 env.macR2 env.macR3, disks, true, iso⟩ := by
      simp [generateDomainXML, hbne]
    refine ⟨?_, ?_, ?_, ?_⟩
    · simp only [countSub, hgen]
      exact countBoot_iso _ rfl hname huuid hisoimg (mac_ne_lt _ _ _) hdisks
    · rw [hgen, render_data_iso _ rfl]
      refine ⟨tpl0.data ++ (nm.data ++ (tpl1.data ++ (env.uuid.data ++ (tpl2.data ++
        ((toString (mem * 1024)).data ++ (tpl3.data ++ ((toString (mem * 1024)).data ++
        (tpl4.data ++ ((toString cp).data ++ (tpl5.data ++
        "\n        <!-- If ISO is present, boot from CD-ROM first -->\n        ".data)))))))))),
        "\n        ".data,
        "\n        ".data ++ (tpl6.data ++ ((renderDisks disks).data ++ (tpl7.data ++
          (tplCD0.data ++ (iso.data ++ (tplCD1.data ++ (tpl8.data ++
            ((generateRandomMAC env.macR1 env.macR2 env.macR3).data ++
              tpl9.data)))))))), ?_⟩
      have hBI : tplBootISO.data =
          "\n        <!-- If ISO is present, boot from CD-ROM first -->\n        ".data ++
            ("<boot dev='cdrom'/>".data ++ ("\n        ".data ++
              ("<boot dev='hd'/>".data ++ "\n        ".data))) := by decide
      rw [hBI]
      simp [List.append_assoc]
    · simp only [countSub, hgen]
      exact countRO_iso _ rfl hname huuid hisoimg (mac_ne_lt _ _ _) hdisks
    · simp only [countSub, hgen]
      exact countCD_iso _ rfl hname huuid hisoimg (mac_ne_lt _ _ _) hdisks

set_option maxRecDepth 400000 in
/-- Witness for C1 at concrete requests, with and without an ISO. -/
theorem C1_boot_and_readonly_devices_witness :
    countSub "<boot dev='" (generateDomainXML c1req c1disks c1env) = 1
    ∧ countSub "<boot dev='" (generateDomainXML c1reqIso c1disks c1env) = 2 :=
  ⟨((C1_boot_and_readonly_devices c1req c1disks c1env (by decide) (by decide) (by decide)
      (by decide)).1 rfl).1,
   ((C1_boot_and_readonly_devices c1reqIso c1disks c1env (by decide) (by decide) (by decide)
      (by decide)).2 (by decide)).1⟩

set_option maxRecDepth 400000 in
/-- C1 counterexample: a request that passes the code's validation (name
non-empty, positive memory and CPUs, no ISO) but whose name carries markup
renders a descriptor with two boot-device declarations, refuting the
original claim's exact count of one for every valid request. -/
theorem C1_boot_and_readonly_devices_counterexample :
    c1badreq.Name ≠ "" ∧ c1badreq.MemoryMB > 0 ∧ c1badreq.CPUs > 0
    ∧ c1badreq.ISOImage = ""
    ∧ countSub "<boot dev='" (generateDomainXML c1badreq c1disks c1env) = 2
    ∧ countSub "<boot dev='" (generateDomainXML c1badreq c1disks c1env) ≠ 1 := by
  have h2 : countSub "<boot dev='" (generateDomainXML c1badreq c1disks c1env) = 2 := by
    have hgen : generateDomainXML c1badreq c1disks c1env = renderDomainXML c1badctx := rfl
    have hcount : countSub "<boot dev='" (generateDomainXML c1badreq c1disks c1env)
        = countP "<boot dev='".data (renderDomainXML c1badctx).data := by
      rw [countSub, hgen]
    rw [hcount, render_data_noiso c1badctx rfl]
    rw [countP_append _ _ _ (by decide), countP_append _ _ _ (by decide),
      countP_append _ _ _ (by decide), countP_append _ _ _ (by decide),
      countP_append _ _ _ (by decide), countP_append _ _ _ (by decide),
      countP_append _ _ _ (by decide), countP_append _ _ _ (by decide),
      countP_append _ _ _ (by decide), countP_append _ _ _ (by decide),
      countP_append _ _ _ (by decide), countP_append _ _ _ (by decide),
      countP_append _ _ _ (by decide), countP_append _ _ _ (by decide),
      countP_append _ _ _ (by decide), countP_append _ _ _ (by decide),
      countP_append _ _ _ (by decide)]
    decide
  exact ⟨by decide, by decide, by decide, rfl, h2, by rw [h2]; decide⟩

/-- C5: the installation-image conditional does not alter the disk-device
list: with and without an ISO the rendering decomposes into the same
context-dependent pieces (`preChunk`, `midChunk` - which carries the
rendered disk list - and `postChunk`); the ISO case only swaps the fixed
boot-order chunk and inserts the single CD-ROM device entry. -/
theorem C5_iso_conditional_is_frame (d : TemplateData) :
    (renderDomainXML { d with HasISO := true }).data =
      preChunk d ++ tplBootISO.data ++ midChunk d
        ++ (tplCD0.data ++ d.ISOImage.data ++ tplCD1.data) ++ postChunk d
    ∧ (renderDomainXML { d with HasISO := false }).data =
      preChunk d ++ tplBootNoISO.data ++ midChunk d ++ postChunk d := by
  constructor
  · rw [render_data_iso _ rfl]
    simp [preChunk, midChunk, postChunk, List.append_assoc]
  · rw [render_data_noiso _ rfl]
    simp [preChunk, midChunk, postChunk, List.append_assoc]

set_option maxRecDepth 400000 in
/-- C6: the rendered descriptor always carries the caller-generated
identifier between uuid tags, the memory declaration converted to KiB
(memory_mb * 1024), the CPU count, the rendered disk-device list (one
entry per DiskDevice, in list order - the flatten equation), and a network
device holding the generated hardware address. -/
theorem C6_descriptor_contents (req : RequestData) (disks : List DiskDevice) (env : Env) :
    (∃ u1 u2 u3 u4 u5 u6,
      (generateDomainXML req disks env).data =
        u1 ++ "<uuid>".data ++ env.uuid.data ++ "</uuid>".data
          ++ u2 ++ "<memory unit='KiB'>".data ++ (toString (req.MemoryMB * 1024)).data
          ++ "</memory>".data
          ++ u3 ++ "<vcpu placement='static'>".data ++ (toString req.CPUs).data
          ++ "</vcpu>".data
          ++ u4 ++ (renderDisks disks).data
          ++ u5 ++ "<mac address='".data
          ++ (generateRandomMAC env.macR1 env.macR2 env.macR3).data ++ "'/>".data
          ++ u6)
    ∧ (∀ ds : List DiskDevice, (renderDisks ds).data =
        (ds.map (fun dk => tplDisk0.data ++ dk.Path.data ++ tplDisk1.data
          ++ dk.Dev.data ++ tplDisk2.data)).flatten) := by
  constructor
  · obtain ⟨nm, pb, iso, mem, cp, dsz⟩ := req
    have h1 : tpl1.data = "</name>\n    ".data ++ "<uuid>".data := by decide
    have h2 : tpl2.data = "</uuid>".data ++ "\n\n    <!-- Memory in KiB -->\n    ".data
        ++ "<memory unit='KiB'>".data := by decide
    have h3 : tpl3.data = "</memory>".data
        ++ "\n    <currentMemory unit='KiB'>".data := by decide
    have h4 : tpl4.data = "</currentMemory>\n\n    <!-- CPU cores -->\n    ".data
        ++ "<vcpu placement='static'>".data := by decide
    have h5 : tpl5.data = "</vcpu>".data
        ++ "\n\n    <os>\n        <type arch='x86_64' machine='pc-q35-7.2'>hvm</type>\n\n        ".data := by
      decide
    have h8 : tpl8.data =
        "\n\n        <!-- Basic network interface with random MAC -->\n        <interface type='network'>\n            ".data
          ++ "<mac address='".data := by decide
    have h9 : tpl9.data = "'/>".data
        ++ "\n            <source network='host-only-net'/>\n            <model type='virtio'/>\n        </interface>\n\n        <!-- Serial console and Spice/VNC style graphics -->\n        <serial type='pty'>\n            <target type='isa-serial' port='0'/>\n        </serial>\n        <console type='pty'>\n            <target type='serial' port='0'/>\n        </console>\n        <graphics type='spice' autoport='yes'>\n            <listen type='address'/>\n            <image compression='off'/>\n        </graphics>\n\n        <!-- Memory balloon and RNG -->\n        <memballoon model='virtio'/>\n        <rng model='virtio'>\n            <backend model='random'>/dev/urandom</backend>\n        </rng>\n\n    </devices>\n</domain>\n".data := by
      decide
    cases hiso : (iso != "") with
    | false =>
      have hgen : generateDomainXML ⟨nm, pb, iso, mem, cp, dsz⟩ disks env =
          renderDomainXML ⟨nm, env.uuid, mem * 1024, cp,
            generateRandomMAC env.macR1 env.macR2 env.macR3, disks, false, iso⟩ := by
        simp [generateDomainXML, hiso]
      rw [hgen, render_data_noiso _ rfl]
      refine ⟨tpl0.data ++ nm.data ++ "</name>\n    ".data,
        "\n\n    <!-- Memory in KiB -->\n    ".data,
        "\n    <currentMemory unit='KiB'>".data ++ (toString (mem * 1024)).data
          ++ "</currentMemory>\n\n    <!-- CPU cores -->\n    ".data,
        "\n\n    <os>\n        <type arch='x86_64' machine='pc-q35-7.2'>hvm</type>\n\n        ".data
          ++ tplBootNoISO.data ++ tpl6.data,
        tpl7.data
          ++ "\n\n        <!-- Basic network interface with random MAC -->\n        <interface type='network'>\n            ".data,
        "\n            <source network='host-only-net'/>\n            <model type='virtio'/>\n        </interface>\n\n        <!-- Serial console and Spice/VNC style graphics -->\n        <serial type='pty'>\n            <target type='isa-serial' port='0'/>\n        </serial>\n        <console type='pty'>\n            <target type='serial' port='0'/>\n        </console>\n        <graphics type='spice' autoport='yes'>\n            <listen type='address'/>\n            <image compression='off'/>\n        </graphics>\n\n        <!-- Memory balloon and RNG -->\n        <memballoon model='virtio'/>\n        <rng model='virtio'>\n            <backend model='random'>/dev/urandom</backend>\n        </rng>\n\n    </devices>\n</domain>\n".data, ?_⟩
      rw [h1, h2, h3, h4, h5, h8, h9]
      simp [List.append_assoc]
    | true =>
      have hgen : generateDomainXML ⟨nm, pb, iso, mem, cp, dsz⟩ disks env =
          renderDomainXML ⟨nm, env.uuid, mem * 1024, cp,
            generateRandomMAC env.macR1 env.macR2 env.macR3, disks, true, iso⟩ := by
        simp [generateDomainXML, hiso]
      rw [hgen, render_data_iso _ rfl]
      refine ⟨tpl0.data ++ nm.data ++ "</name>\n    ".data,
        "\n\n    <!-- Memory in KiB -->\n    ".data,
        "\n    <currentMemory unit='KiB'>".data ++ (toString (mem * 1024)).data
          ++ "</currentMemory>\n\n    <!-- CPU cores -->\n    ".data,
        "\n\n    <os>\n        <type arch='x86_64' machine='pc-q35-7.2'>hvm</type>\n\n        ".data
          ++ tplBootISO.data ++ tpl6.data,
        tpl7.data ++ tplCD0.data ++ iso.data ++ tplCD1.data
          ++ "\n\n        <!-- Basic network interface with random MAC -->\n        <interface type='network'>\n            ".data,
        "\n            <source network='host-only-net'/>\n            <model type='virtio'/>\n        </interface>\n\n        <!-- Serial console and Spice/VNC style graphics -->\n        <serial type='pty'>\n            <target type='isa-serial' port='0'/>\n        </serial>\n        <console type='pty'>\n            <target type='serial' port='0'/>\n        </console>\n        <graphics type='spice' autoport='yes'>\n            <listen type='address'/>\n            <image compression='off'/>\n        </graphics>\n\n        <!-- Memory balloon and RNG -->\n        <memballoon model='virtio'/>\n        <rng model='virtio'>\n            <backend model='random'>/dev/urandom</backend>\n        </rng>\n\n    </devices>\n</domain>\n".data, ?_⟩
      rw [h1, h2, h3, h4, h5, h8, h9]
      simp [List.append_assoc]
  · intro ds
    induction ds with
    | nil => simp [renderDisks]
    | cons dk rest ih => simp [renderDisks, ih, List.append_assoc]

/-- C4: the descriptor renderer is deterministic and pure: the output of
`generateDomainXML` depends only on the request, the disk list, and the
two upstream-randomized context fields (the identifier and the hardware
address octets); it is independent of every other oracle field, and equal
contexts render to byte-identical text. -/
theorem C4_renderer_deterministic (req : RequestData) (disks : List DiskDevice)
    (env1 env2 : Env) (huuid : env1.uuid = env2.uuid)
    (h1 : env1.macR1 = env2.macR1) (h2 : env1.macR2 = env2.macR2)
    (h3 : env1.macR3 = env2.macR3) :
    generateDomainXML req disks env1 = generateDomainXML req disks env2
    ∧ ∀ d1 d2 : TemplateData, d1 = d2 → renderDomainXML d1 = renderDomainXML d2 := by
  refine ⟨?_, fun d1 d2 h => h ▸ rfl⟩
  unfold generateDomainXML
  rw [huuid, h1, h2, h3]

/-- Witness for C4: two oracles that differ in every operational outcome
but agree on the identifier and the hardware-address octets. -/
theorem C4_renderer_deterministic_witness :
    generateDomainXML c1req c1disks c1env =
      generateDomainXML c1req c1disks
        { uuid := "123e4567-e89b-12d3-a456-426614174000", macR1 := 0, macR2 := 171,
          macR3 := 255, qemuImg := fun _ _ => .error "boom", connect := .error "down",
          define := fun _ => .error "bad", start := .error "no", undefineOk := false } :=
  (C4_renderer_deterministic c1req c1disks c1env _ rfl rfl rfl rfl).1

/-- C7: hardware-address generation yields the fixed vendor text followed
by three octets, each rendered as exactly two lowercase hexadecimal digits
that decode back to the octet value. -/
theorem C7_mac_format (r1 r2 r3 : Nat) (h1 : r1 < 256) (h2 : r2 < 256) (h3 : r3 < 256) :
    (generateRandomMAC r1 r2 r3).data =
      "52:54:00:".data ++ (govHex r1).data ++ ":".data ++ (govHex r2).data
        ++ ":".data ++ (govHex r3).data
    ∧ ((govHex r1).data.length = 2 ∧ (∀ c ∈ (govHex r1).data, c ∈ lowerHexDigits)
        ∧ hexVal (govHex r1).data = r1)
    ∧ ((govHex r2).data.length = 2 ∧ (∀ c ∈ (govHex r2).data, c ∈ lowerHexDigits)
        ∧ hexVal (govHex r2).data = r2)
    ∧ ((govHex r3).data.length = 2 ∧ (∀ c ∈ (govHex r3).data, c ∈ lowerHexDigits)
        ∧ hexVal (govHex r3).data = r3) := by
  refine ⟨?_, govHex_spec r1 h1, govHex_spec r2 h2, govHex_spec r3 h3⟩
  simp [generateRandomMAC, List.append_assoc]

/-- Witness for C7 at the concrete octets 0, 171, 255. -/
theorem C7_mac_format_witness :
    (generateRandomMAC 0 171 255).data =
      "52:54:00:".data ++ (govHex 0).data ++ ":".data ++ (govHex 171).data
        ++ ":".data ++ (govHex 255).data :=
  (C7_mac_format 0 171 255 (by decide) (by decide) (by decide)).1

/-- C2: for a validated request, a prebuilt disk path together with a
positive disk size resolves to the two-element device list [root, secondary]
with distinct slots vda and vdb; without a prebuilt path the list is the
root device alone. -/
theorem C2_resolved_disk_list (req : RequestData)
    (hname : req.Name ≠ "") (hmem : req.MemoryMB > 0) (hcpu : req.CPUs > 0) :
    (req.PrebuiltDiskPath ≠ "" → req.DiskSizeGB > 0 →
      buildDisks req = [{ Dev := "vda", Path := req.PrebuiltDiskPath },
                        { Dev := "vdb", Path := dataDiskPathOf req }]
      ∧ ("vda" : String) ≠ "vdb")
    ∧ (req.PrebuiltDiskPath = "" →
      buildDisks req = [{ Dev := "vda", Path := rootDiskPathOf req }]) := by
  constructor
  · intro hp hs
    refine ⟨?_, by decide⟩
    simp [buildDisks, resolvedRootPath, hp, hs]
  · intro hp
    simp [buildDisks, resolvedRootPath, hp]

/-- Witness for C2 at a concrete prebuilt-root request. -/
theorem C2_resolved_disk_list_witness :
    buildDisks c2req = [{ Dev := "vda", Path := "/var/lib/libvirt/images/base.qcow2" },
                        { Dev := "vdb", Path := "/var/lib/libvirt/images/vm2-data.qcow2" }] :=
  ((C2_resolved_disk_list c2req (by decide) (by decide) (by decide)).1
    (by decide) (by decide)).1

/-- C3: a request with a missing name, non-positive memory, or non-positive
CPU count is rejected with HTTP 400 and an empty side-effect trace: no disk
creation or any other external call happens. -/
theorem C3_validation_rejects_first (env : Env) (req : RequestData)
    (hbad : req.Name = "" ∨ req.MemoryMB ≤ 0 ∨ req.CPUs ≤ 0) :
    handleCreateVM env "POST" (some req) =
      (⟨400, .text ("Missing/invalid request fields: " ++ fmtRequest req)⟩, []) := by
  simp [handleCreateVM, hbad]

/-- Witness for C3 at a concrete empty-name request. -/
theorem C3_validation_rejects_first_witness :
    handleCreateVM c1env "POST" (some c3req) =
      (⟨400, .text ("Missing/invalid request fields: " ++ fmtRequest c3req)⟩, []) :=
  C3_validation_rejects_first c1env c3req (Or.inl rfl)

/-- C10: a request that passes validation but has no prebuilt disk and a
non-positive disk_size_gb is not rejected with 400; root-disk creation
fails with the size-check error before qemu-img is invoked (empty trace)
and the handler answers HTTP 500. -/
theorem C10_nonpositive_size_is_500 (env : Env) (req : RequestData)
    (hpre : req.PrebuiltDiskPath = "") (hsz : req.DiskSizeGB ≤ 0)
    (hname : req.Name ≠ "") (hmem : req.MemoryMB > 0) (hcpu : req.CPUs > 0) :
    handleCreateVM env "POST" (some req) =
      (writeErrorResponse ("Failed to create root disk: "
        ++ "disk_size_gb must be > 0 to create a new disk"), []) := by
  have hm : ¬req.MemoryMB ≤ 0 := by omega
  have hc : ¬req.CPUs ≤ 0 := by omega
  simp [handleCreateVM, hname, hm, hc, hpre, createQcow2Disk, hsz]

/-- Witness for C10 at a concrete zero-size request. -/
theorem C10_nonpositive_size_is_500_witness :
    handleCreateVM c1env "POST" (some c10req) =
      (writeErrorResponse ("Failed to create root disk: "
        ++ "disk_size_gb must be > 0 to create a new disk"), []) :=
  C10_nonpositive_size_is_500 c1env c10req rfl (by decide) (by decide) (by decide)
    (by decide)

theorem noRemove_qemu (env : Env) (path : String) (s : Int) :
    noRemove (createQcow2Disk env path s).2 := by
  unfold createQcow2Disk
  split
  · simp [noRemove]
  · split <;> simp [noRemove]

theorem noRemove_root (env : Env) (req : RequestData) :
    noRemove (if req.PrebuiltDiskPath ≠ "" then (Except.ok (), ([] : List Effect))
              else createQcow2Disk env (rootDiskPathOf req) req.DiskSizeGB).2 := by
  split
  · simp [noRemove]
  · exact noRemove_qemu env _ _

theorem noRemove_second (env : Env) (req : RequestData) :
    noRemove (if req.PrebuiltDiskPath ≠ "" ∧ req.DiskSizeGB > 0 then
                createQcow2Disk env (dataDiskPathOf req) req.DiskSizeGB
              else (Except.ok (), ([] : List Effect))).2 := by
  split
  · exact noRemove_qemu env _ _
  · simp [noRemove]

theorem noRemove_append (l1 l2 : List Effect) (h1 : noRemove l1) (h2 : noRemove l2) :
    noRemove (l1 ++ l2) := by
  intro p hmem
  rcases List.mem_append.mp hmem with h | h
  · exact h1 p h
  · exact h2 p h

theorem noRemove_handle (env : Env) (method : String) (body : Option RequestData) :
    noRemove (handleCreateVM env method body).2 := by
  unfold handleCreateVM
  split
  · simp [noRemove]
  · split
    · simp [noRemove]
    · rename_i req
      split
      · simp [noRemove]
      · split
        · rename_i e fx1 heq
          have h := noRemove_root env req
          rw [heq] at h
          exact h
        · rename_i fx1 heq1
          have hfx1 := noRemove_root env req
          rw [heq1] at hfx1
          split
          · rename_i e fx2 heq2
            have hfx2 := noRemove_second env req
            rw [heq2] at hfx2
            exact noRemove_append _ _ hfx1 hfx2
          · rename_i fx2 heq2
            have hfx2 := noRemove_second env req
            rw [heq2] at hfx2
            split
            · exact noRemove_append _ _ (noRemove_append _ _ hfx1 hfx2) (by simp [noRemove])
            · split
              · exact noRemove_append _ _ (noRemove_append _ _ hfx1 hfx2) (by simp [noRemove])
              · split
                · exact noRemove_append _ _ (noRemove_append _ _ hfx1 hfx2) (by simp [noRemove])
                · exact noRemove_append _ _ (noRemove_append _ _ hfx1 hfx2) (by simp [noRemove])

/-- C9: when definition succeeds and start fails, the handler emits exactly
one domain-undefine cleanup, discards the cleanup outcome (the response and
trace are independent of it), returns a 500 error response, and no disk
file is ever removed on this or any other path. -/
theorem C9_start_failure_cleanup (env : Env) (req : RequestData) (e : String)
    (hqemu : ∀ p s, env.qemuImg p s = .ok ()) (hconn : env.connect = .ok ())
    (hdef : ∀ x, env.define x = .ok ()) (hstart : env.start = .error e)
    (hvalid : ¬(req.Name = "" ∨ req.MemoryMB ≤ 0 ∨ req.CPUs ≤ 0))
    (hroot : req.PrebuiltDiskPath = "" → req.DiskSizeGB > 0) :
    (handleCreateVM env "POST" (some req)).1 =
      writeErrorResponse ("Failed to start domain: " ++ e)
    ∧ (handleCreateVM env "POST" (some req)).2.count Effect.domainUndefine = 1
    ∧ (∀ b, handleCreateVM { env with undefineOk := b } "POST" (some req) =
        handleCreateVM env "POST" (some req))
    ∧ (∀ env' method body p,
        Effect.fileRemove p ∉ (handleCreateVM env' method body).2) := by
  by_cases hp : req.PrebuiltDiskPath = ""
  · have hs : req.DiskSizeGB > 0 := hroot hp
    have hs' : ¬req.DiskSizeGB ≤ 0 := by omega
    refine ⟨?_, ?_, fun b => rfl, fun env' method body p => noRemove_handle env' method body p⟩
    · simp [handleCreateVM, hvalid, hp, createQcow2Disk, hs', hqemu, hconn, hdef, hstart]
    · simp [handleCreateVM, hvalid, hp, createQcow2Disk, hs', hqemu, hconn, hdef, hstart,
        List.count_cons, List.count_append]
  · by_cases hs : req.DiskSizeGB > 0
    · have hs' : ¬req.DiskSizeGB ≤ 0 := by omega
      refine ⟨?_, ?_, fun b => rfl, fun env' method body p => noRemove_handle env' method body p⟩
      · simp [handleCreateVM, hvalid, hp, createQcow2Disk, hs, hs', hqemu, hconn, hdef, hstart]
      · simp [handleCreateVM, hvalid, hp, createQcow2Disk, hs, hs', hqemu, hconn, hdef, hstart,
          List.count_cons, List.count_append]
    · refine ⟨?_, ?_, fun b => rfl, fun env' method body p => noRemove_handle env' method body p⟩
      · simp [handleCreateVM, hvalid, hp, hs, hqemu, hconn, hdef, hstart]
      · simp [handleCreateVM, hvalid, hp, hs, hqemu, hconn, hdef, hstart,
          List.count_cons, List.count_append]

/-- Witness for C9 at a concrete request and start-failing oracle. -/
theorem C9_start_failure_cleanup_witness :
    (handleCreateVM c9env "POST" (some c1req)).1 =
      writeErrorResponse ("Failed to start domain: " ++ "guest failed to boot")
    ∧ (handleCreateVM c9env "POST" (some c1req)).2.count Effect.domainUndefine = 1 := by
  have h := C9_start_failure_cleanup c9env c1req "guest failed to boot"
    (fun _ _ => rfl) rfl (fun _ => rfl) rfl (by decide) (fun _ => by decide)
  exact ⟨h.1, h.2.1⟩

/-- Response classification helper: every handler response is one of 405
(plain text), 400 (plain text), 500 (JSON error), or 200 (JSON success). -/
theorem handle_response_shape (env : Env) (method : String) (body : Option RequestData) :
    ((handleCreateVM env method body).1.code = 405
      ∧ (handleCreateVM env method body).1.body = .text "Only POST is allowed")
    ∨ ((handleCreateVM env method body).1.code = 400
      ∧ ∃ s, (handleCreateVM env method body).1.body = .text s)
    ∨ ((handleCreateVM env method body).1.code = 500
      ∧ ∃ m, (handleCreateVM env method body).1.body = .json ⟨"error", m⟩)
    ∨ ((handleCreateVM env method body).1.code = 200
      ∧ (handleCreateVM env method body).1.body =
          .json ⟨"success", "VM created and started successfully"⟩) := by
  unfold handleCreateVM
  split
  · exact Or.inl ⟨rfl, rfl⟩
  · split
    · exact Or.inr (Or.inl ⟨rfl, _, rfl⟩)
    · split
      · exact Or.inr (Or.inl ⟨rfl, _, rfl⟩)
      · split
        · exact Or.inr (Or.inr (Or.inl ⟨rfl, _, rfl⟩))
        · split
          · exact Or.inr (Or.inr (Or.inl ⟨rfl, _, rfl⟩))
          · split
            · exact Or.inr (Or.inr (Or.inl ⟨rfl, _, rfl⟩))
            · split
              · exact Or.inr (Or.inr (Or.inl ⟨rfl, _, rfl⟩))
              · split
                · exact Or.inr (Or.inr (Or.inl ⟨rfl, _, rfl⟩))
                · exact Or.inr (Or.inr (Or.inr ⟨rfl, rfl⟩))

/-- For a POST request with a decoded body that passes validation, the
handler either answers 500 with a JSON error body, or answers the success
response - and then every external step on the executed path (required
disk creations, connect, define, start) returned ok.  Contrapositively,
any internal failure yields HTTP 500. -/
theorem handle_valid_dichotomy (env : Env) (req : RequestData)
    (hvalid : ¬(req.Name = "" ∨ req.MemoryMB ≤ 0 ∨ req.CPUs ≤ 0)) :
    ((handleCreateVM env "POST" (some req)).1.code = 500
      ∧ ∃ m, (handleCreateVM env "POST" (some req)).1.body = RespBody.json ⟨"error", m⟩)
    ∨ ((handleCreateVM env "POST" (some req)).1 =
          writeSuccessResponse "VM created and started successfully"
      ∧ (req.PrebuiltDiskPath = "" →
          (createQcow2Disk env (rootDiskPathOf req) req.DiskSizeGB).1 = Except.ok ())
      ∧ (req.PrebuiltDiskPath ≠ "" ∧ req.DiskSizeGB > 0 →
          (createQcow2Disk env (dataDiskPathOf req) req.DiskSizeGB).1 = Except.ok ())
      ∧ env.connect = Except.ok ()
      ∧ env.define (generateDomainXML req (buildDisks req) env) = Except.ok ()
      ∧ env.start = Except.ok ()) := by
  unfold handleCreateVM
  rw [if_neg (by simp)]
  dsimp only
  rw [if_neg hvalid]
  split
  · exact Or.inl ⟨rfl, _, rfl⟩
  · rename_i u1 fx1 heq1
    split
    · exact Or.inl ⟨rfl, _, rfl⟩
    · rename_i u2 fx2 heq2
      split
      · exact Or.inl ⟨rfl, _, rfl⟩
      · rename_i u3 heq3
        split
        · exact Or.inl ⟨rfl, _, rfl⟩
        · rename_i u4 heq4
          split
          · exact Or.inl ⟨rfl, _, rfl⟩
          · rename_i u5 heq5
            refine Or.inr ⟨rfl, ?_, ?_, ?_, ?_, ?_⟩
            · intro hp
              rw [if_neg (by simp [hp])] at heq1
              rw [heq1]
            · intro hps
              rw [if_pos hps] at heq2
              rw [heq2]
            · rw [heq3]
            · rw [heq4]
            · rw [heq5]

/-- C8 as amended: any non-POST method yields 405 with no side effects; a
malformed body yields 400; missing/invalid required fields yield 400; for a
validated POST request the response is either a 500 with a JSON error body
or the success response with every external step having returned ok (so any
internal failure yields 500); every status is one of 405, 400, 500, 200;
500 responses carry a JSON error body and success carries a JSON success
body - but the 405 and 400 responses carry plain text, not JSON. -/
theorem C8_http_statuses (env : Env) (method : String) (body : Option RequestData) :
    (method ≠ "POST" →
      handleCreateVM env method body = (⟨405, .text "Only POST is allowed"⟩, []))
    ∧ (method = "POST" → body = none →
      handleCreateVM env method body = (⟨400, .text "Invalid JSON input"⟩, []))
    ∧ (∀ req, method = "POST" → body = some req →
      (req.Name = "" ∨ req.MemoryMB ≤ 0 ∨ req.CPUs ≤ 0) →
      handleCreateVM env method body =
        (⟨400, .text ("Missing/invalid request fields: " ++ fmtRequest req)⟩, []))
    ∧ (∀ req, method = "POST" → body = some req →
      ¬(req.Name = "" ∨ req.MemoryMB ≤ 0 ∨ req.CPUs ≤ 0) →
      ((handleCreateVM env method body).1.code = 500
        ∧ ∃ m, (handleCreateVM env method body).1.body = RespBody.json ⟨"error", m⟩)
      ∨ ((handleCreateVM env method body).1 =
            writeSuccessResponse "VM created and started successfully"
        ∧ (req.PrebuiltDiskPath = "" →
            (createQcow2Disk env (rootDiskPathOf req) req.DiskSizeGB).1 = Except.ok ())
        ∧ (req.PrebuiltDiskPath ≠ "" ∧ req.DiskSizeGB > 0 →
            (createQcow2Disk env (dataDiskPathOf req) req.DiskSizeGB).1 = Except.ok ())
        ∧ env.connect = Except.ok ()
        ∧ env.define (generateDomainXML req (buildDisks req) env) = Except.ok ()
        ∧ env.start = Except.ok ()))
    ∧ ((handleCreateVM env method body).1.code = 405
      ∨ (handleCreateVM env method body).1.code = 400
      ∨ (handleCreateVM env method body).1.code = 500
      ∨ (handleCreateVM env method body).1.code = 200)
    ∧ ((handleCreateVM env method body).1.code = 500 →
      ∃ m, (handleCreateVM env method body).1.body = .json ⟨"error", m⟩)
    ∧ ((handleCreateVM env method body).1.code = 200 →
      (handleCreateVM env method body).1.body =
        .json ⟨"success", "VM created and started successfully"⟩) := by
  refine ⟨fun h => by simp [handleCreateVM, h], fun h hb => by simp [handleCreateVM, h, hb],
    fun req hm hb hbad => by subst hm; subst hb; simp [handleCreateVM, hbad],
    fun req hm hb hvalid => by subst hm; subst hb; exact handle_valid_dichotomy env req hvalid,
    ?_, ?_, ?_⟩ <;>
    rcases handle_response_shape env method body with ⟨h1, h2⟩ | ⟨h1, h2⟩ | ⟨h1, h2⟩ | ⟨h1, h2⟩
  · exact Or.inl h1
  · exact Or.inr (Or.inl h1)
  · exact Or.inr (Or.inr (Or.inl h1))
  · exact Or.inr (Or.inr (Or.inr h1))
  · intro h5; rw [h1] at h5; cases h5
  · intro h5; rw [h1] at h5; cases h5
  · intro h5; exact h2
  · intro h5; rw [h1] at h5; cases h5
  · intro h2'; rw [h1] at h2'; cases h2'
  · intro h2'; rw [h1] at h2'; cases h2'
  · intro h2'; rw [h1] at h2'; cases h2'
  · intro h2'; exact h2

/-- Witness for C8 exercising the 405, malformed-400 and invalid-field-400
clauses at concrete inputs. -/
theorem C8_http_statuses_witness :
    handleCreateVM c1env "GET" none = (⟨405, .text "Only POST is allowed"⟩, [])
    ∧ handleCreateVM c1env "POST" none = (⟨400, .text "Invalid JSON input"⟩, [])
    ∧ handleCreateVM c1env "POST" (some c3req) =
        (⟨400, .text ("Missing/invalid request fields: " ++ fmtRequest c3req)⟩, []) :=
  ⟨(C8_http_statuses c1env "GET" none).1 (by decide),
   (C8_http_statuses c1env "POST" none).2.1 rfl rfl,
   (C8_http_statuses c1env "POST" (some c3req)).2.2.1 c3req rfl rfl (Or.inl rfl)⟩

/-- C8 counterexample: the 405 response to a non-POST request carries a
plain-text body, not a JSON {status, message} body as the claim states. -/
theorem C8_json_body_counterexample :
    (handleCreateVM c1env "GET" none).1.code = 405
    ∧ (handleCreateVM c1env "GET" none).1.body = .text "Only POST is allowed"
    ∧ ∀ r : ResponseData, (handleCreateVM c1env "GET" none).1.body ≠ .json r := by
  refine ⟨rfl, rfl, ?_⟩
  intro r h
  have hb : (handleCreateVM c1env "GET" none).1.body = .text "Only POST is allowed" := rfl
  rw [hb] at h
  cases h
